import Mathlib

/-!
Shallow embedding of the voicemod voice-transcription bot.

The definitions below are translated from the JavaScript source:
* the per-speaker voice-activity segmenter, the frame activity scanner, the
  stream registry and the dispatch glue come from `setupUserAudioReceiver`
  and `transcribeAudio` (src/unnamed/part_003);
* `transcribeAndSave` and `getUserTranscriptions` come from the
  transcription service (src/unnamed/part_004, src/services/transcriptionService.js);
* `addTranscription` comes from the user model (src/models/User.js).

Times are modelled as natural numbers of milliseconds, audio frames as lists
of byte values, and the asynchronous provider and storage collaborators as
explicit outcome fields of an environment record.  A promise that can reject
is modelled with `Except`; a JavaScript function that catches internally and
returns `null` is a total function returning `Option`.
-/

namespace Voicemod

/-- JavaScript `parseInt(process.env.SILENCE_DURATION) || 2000`: an unset or
zero-parsing configuration value falls back to the 2000 ms default. -/
def silenceThreshold (cfg : Option Nat) : Nat :=
  match cfg with
  | some v => if v = 0 then 2000 else v
  | none => 2000

/-! ### Voice-activity segmenter (data handler in `setupUserAudioReceiver`) -/

/-- The mutable segmenter variables of one speaker pipeline:
`isSpeaking` and `silenceStart` (null modelled as `none`). -/
structure SegState where
  isSpeaking : Bool
  silenceStart : Option Nat
deriving Repr, DecidableEq

/-- Initial segmenter state: `silenceStart = null`, `isSpeaking = false`. -/
def initSegState : SegState := { isSpeaking := false, silenceStart := none }

/-- One audio frame arriving at time `now`, already classified as
active/inactive, updates the segmenter state exactly as the `data` handler
does.  The returned flag is true when the handler emits an utterance
boundary (the "finished speaking" processing block).  Note that the source
has no branch for an active frame while `isSpeaking` is set, so
`silenceStart` is not cleared in that case. -/
def segStep (threshold : Nat) (now : Nat) (active : Bool) (s : SegState) :
    SegState × Bool :=
  if active && !s.isSpeaking then
    ({ isSpeaking := true, silenceStart := none }, false)
  else if !active && s.isSpeaking then
    match s.silenceStart with
    | none => ({ s with silenceStart := some now }, false)
    | some t0 =>
      if threshold < now - t0 then
        ({ s with isSpeaking := false }, true)
      else (s, false)
  else (s, false)

/-- Run the segmenter over a sequence of (arrival time, active?) frames,
returning the final state and the per-frame boundary flags. -/
def segRun (threshold : Nat) : SegState → List (Nat × Bool) → SegState × List Bool
  | s, [] => (s, [])
  | s, (now, active) :: rest =>
    let r := segStep threshold now active s
    let rr := segRun threshold r.1 rest
    (rr.1, r.2 :: rr.2)

/-! ### Frame activity scanner

The `data` handler decides whether a chunk contains audio by sampling:
`sampleSize = Math.max(100, Math.floor(chunk.length * 0.2))`,
`step = Math.floor(chunk.length / sampleSize)`, then
`for (let i = 0; i < chunk.length; i += step) if (chunk[i] !== 0) ...`.
For frame lengths below about `2 ^ 50` the double-precision product
`chunk.length * 0.2` always floors to `chunk.length / 5` in integers, so the
sample size is embedded with natural division. -/

/-- `Math.max(100, Math.floor(chunk.length * 0.2))`. -/
def sampleSize (len : Nat) : Nat := max 100 (len / 5)

/-- `Math.floor(chunk.length / sampleSize)`: the loop increment. -/
def sampleStep (len : Nat) : Nat := len / sampleSize len

/-- The sampling loop, fuel-indexed: `none` means the loop has not exited
after `fuel` iterations (the source loop has no other exit).  `some true`
is a non-zero sampled byte (`containsAudio = true; break`), `some false`
is normal loop exit with every sampled byte zero. -/
def scanLoop (chunk : List Nat) (step : Nat) : Nat → Nat → Option Bool
  | 0, _ => none
  | fuel + 1, i =>
    if h : i < chunk.length then
      if chunk.get ⟨i, h⟩ ≠ 0 then some true
      else scanLoop chunk step fuel (i + step)
    else some false

/-- The whole `containsAudio` computation on a frame, starting at index 0
with the stride computed from the frame length. -/
def containsAudio (chunk : List Nat) (fuel : Nat) : Option Bool :=
  scanLoop chunk (sampleStep chunk.length) fuel 0

/-- The sampling loop never exits on this frame, whatever the iteration
bound: the embedded form of an infinite `for` loop. -/
def scanDiverges (chunk : List Nat) : Prop :=
  ∀ fuel, containsAudio chunk fuel = none

/-! ### Stream registry (`userAudioStreams`)

`setupUserAudioReceiver` first checks `userAudioStreams.has(guildUserId)`
and returns at once when a stream is already registered; otherwise it
subscribes and stores the new stream under the key.  Entries are modelled
as (guildUserId, stream identity) pairs. -/

/-- One call to `setupUserAudioReceiver` as it affects the registry. -/
def setupReceiver (streams : List (String × Nat)) (key : String) (fresh : Nat) :
    List (String × Nat) :=
  if streams.any (fun e => e.1 == key) then streams
  else (key, fresh) :: streams

/-! ### Per-speaker session entries (`userSessions`)

`setupUserAudioReceiver` stores `{ username, lastTranscription: Date.now() }`
under the guildUserId key; the recovery path simply re-invokes the setup, so
after a recovery cycle the key holds a fresh record. -/

/-- The session record installed by one invocation of
`setupUserAudioReceiver` at time `now`. -/
structure UserSession where
  username : String
  lastTranscription : Nat
deriving Repr, DecidableEq

/-- The fresh entry written by `userSessions.set(guildUserId, ...)`. -/
def setupSession (username : String) (now : Nat) : UserSession :=
  { username := username, lastTranscription := now }

/-- The `handleTranscription` result callback of the direct path: when the
result is non-null with non-empty text it looks up the current session
entry and, when the voice channel and the entry exist, posts
`username: text` to the system text channel (when that channel resolves)
and sets `lastTranscription` on whatever entry is currently stored.
Returns the updated entry and the number of result-sink posts. -/
def handleTranscription (result : Option String) (channelExists : Bool)
    (textChannelExists : Bool) (now : Nat) (sess : Option UserSession) :
    Option UserSession × Nat :=
  match result with
  | some text =>
    if text ≠ "" then
      match sess with
      | some u =>
        if channelExists then
          (some { u with lastTranscription := now },
            if textChannelExists then 1 else 0)
        else (some u, 0)
      | none => (none, 0)
    else (sess, 0)
  | none => (sess, 0)

/-! ### Utterance dispatch

The environment collects the file-system, provider, database and channel
facts that the dispatch code observes.  `providerText` is the outcome of
the axios call made inside `transcribeAndSave` (`none` is a rejected
request, timeout included); `directText` is the outcome of the axios call
made by the fallback `transcribeAudio`. -/

structure DispatchEnv where
  mongoAtBoundary : Bool
  fileExists : Bool
  fileSize : Nat
  apiKeyPresent : Bool
  providerText : Option String
  dbReady : Bool
  userLookupOk : Bool
  saveOk : Bool
  directText : Option String
  channelExists : Bool
  textChannelExists : Bool
deriving Repr, DecidableEq

/-- Side-effect counters of one dispatched utterance. -/
structure Effects where
  providerCalls : Nat
  storageWrites : Nat
  sinkPosts : Nat
  fallbackCalls : Nat
deriving Repr, DecidableEq

/-- `transcriptionService.transcribeAndSave`: returns the promise outcome
(`Except.error` would be a rejection; every branch of the source resolves,
because the whole body is wrapped in try/catch and the catch returns null),
together with the number of provider calls and storage writes it made.
Branches in source order: missing file, size floor below 1000 bytes,
missing API key (thrown, caught, null), provider failure (caught, null),
database not ready (result returned without persistence), user find/create
failure (rethrown, caught, null), addTranscription save failure (caught,
null), success with persistence. -/
def transcribeAndSave (env : DispatchEnv) :
    Except Unit (Option String) × Nat × Nat :=
  if !env.fileExists then (.ok none, 0, 0)
  else if env.fileSize < 1000 then (.ok none, 0, 0)
  else if !env.apiKeyPresent then (.ok none, 0, 0)
  else
    match env.providerText with
    | none => (.ok none, 1, 0)
    | some text =>
      if !env.dbReady then (.ok (some text), 1, 0)
      else if !env.userLookupOk then (.ok none, 1, 0)
      else if !env.saveOk then (.ok none, 1, 0)
      else (.ok (some text), 1, 1)

/-- The fallback `transcribeAudio` of part_003: same file checks, direct
provider call, null on missing key, failure or empty response text.
Returns the result and the number of provider calls. -/
def transcribeAudio (env : DispatchEnv) : Option String × Nat :=
  if !env.fileExists then (none, 0)
  else if env.fileSize < 1000 then (none, 0)
  else if !env.apiKeyPresent then (none, 0)
  else
    match env.directText with
    | none => (none, 1)
    | some text => if text ≠ "" then (some text, 1) else (none, 1)

/-- The MongoDB branch of the boundary-processing block:
`transcribeAndSave(...).then(result => ...).catch(error => fallback)`.
The then-handler posts to the sink on a non-empty text when the text
channel resolves; the catch-handler runs only when the promise rejects and
then performs the fallback `transcribeAudio(...).then(handleTranscription)`. -/
def dispatchMongo (env : DispatchEnv) (sess : Option UserSession) (now : Nat) :
    Effects × Option UserSession :=
  match transcribeAndSave env with
  | (.ok res, p, w) =>
    let sink : Nat :=
      match res with
      | some text => if text ≠ "" && env.textChannelExists then 1 else 0
      | none => 0
    ({ providerCalls := p, storageWrites := w, sinkPosts := sink,
       fallbackCalls := 0 }, sess)
  | (.error _, p, w) =>
    let f := transcribeAudio env
    let h := handleTranscription f.1 env.channelExists env.textChannelExists now sess
    ({ providerCalls := p + f.2, storageWrites := w, sinkPosts := h.2,
       fallbackCalls := 1 }, h.1)

/-- The non-MongoDB branch:
`transcribeAudio(currentOutputPath, guildUserId).then(handleTranscription)`. -/
def dispatchDirect (env : DispatchEnv) (sess : Option UserSession) (now : Nat) :
    Effects × Option UserSession :=
  let f := transcribeAudio env
  let h := handleTranscription f.1 env.channelExists env.textChannelExists now sess
  ({ providerCalls := f.2, storageWrites := 0, sinkPosts := h.2,
     fallbackCalls := 0 }, h.1)

/-- Boundary processing chooses the storage-integrated path when
`USE_MONGODB && mongoose && mongoose.connection.readyState === 1`. -/
def dispatchUtterance (env : DispatchEnv) (sess : Option UserSession) (now : Nat) :
    Effects × Option UserSession :=
  if env.mongoAtBoundary then dispatchMongo env sess now
  else dispatchDirect env sess now

/-! ### User model (src/models/User.js)

Confidence scores live on the rationals; the JavaScript engine computes the
running average in double precision, but every claim checked here is about
which branch updates the average, not about rounding.  Optional fields of
the transcription payload are `Option` values; JavaScript truthiness of
`undefined`, `null` and `0` is made explicit by the `jsTruthy` helpers. -/

structure TranscriptionData where
  timestamp : Nat
  content : String
  channelId : String
  channelName : String
  guildId : String
  guildName : String
  duration : Option Nat
  confidenceScore : Option ℚ
  audioFilePath : Option String
deriving Repr, DecidableEq

structure UserStats where
  totalTranscriptions : Nat
  totalSpeakingTime : Nat
  averageConfidence : ℚ
deriving Repr, DecidableEq

structure UserRec where
  userId : String
  username : String
  transcriptions : List TranscriptionData
  stats : UserStats
  lastActive : Nat
deriving Repr, DecidableEq

/-- Truthiness of an optional numeric field (`undefined` and `0` are falsy). -/
def jsTruthyQ : Option ℚ → Bool
  | none => false
  | some v => v != 0

/-- Truthiness of an optional string field (`undefined` and the empty
string are falsy). -/
def jsTruthyStr : Option String → Bool
  | none => false
  | some s => s != ""

/-- Truthiness of an optional natural-number field. -/
def jsTruthyNat : Option Nat → Bool
  | none => false
  | some v => v != 0

/-- `options.limit || 100` style defaulting: an absent or zero value yields
the default. -/
def jsOrNat (x : Option Nat) (d : Nat) : Nat :=
  match x with
  | some v => if v = 0 then d else v
  | none => d

/-- `UserSchema.methods.addTranscription`: push the payload, increment
`totalTranscriptions`, add `duration || 0` to `totalSpeakingTime`, and when
`confidenceScore` is truthy recompute the running average using the already
incremented counter (`totalConfidence = avg * (total - 1)`); finally stamp
`lastActive`. -/
def addTranscription (u : UserRec) (t : TranscriptionData) (now : Nat) : UserRec :=
  let n := u.stats.totalTranscriptions + 1
  let speak := u.stats.totalSpeakingTime + t.duration.getD 0
  let avg : ℚ :=
    if jsTruthyQ t.confidenceScore then
      (u.stats.averageConfidence * ((n : ℚ) - 1) + t.confidenceScore.getD 0) / (n : ℚ)
    else u.stats.averageConfidence
  { u with
    transcriptions := u.transcriptions ++ [t]
    stats :=
      { totalTranscriptions := n
        totalSpeakingTime := speak
        averageConfidence := avg }
    lastActive := now }

/-! ### Transcription history query (`getUserTranscriptions`)

The database lookup is modelled as `Except Unit (Option UserRec)`: an
`error` is any thrown internal error (caught by the source, which then
returns `[]`), `ok none` is a missing user record.  The query options
mirror the source: each filter applies only when the option is truthy,
the list is then sorted newest-first (JavaScript `Array.prototype.sort`
is a stable sort, modelled by the stable `List.mergeSort`), and
`slice(skip, skip + limit)` is drop-then-take. -/

structure QueryOptions where
  limit : Option Nat
  skip : Option Nat
  guildId : Option String
  channelId : Option String
  startDate : Option Nat
  endDate : Option Nat
deriving Repr

/-- The four optional filters of `getUserTranscriptions`, in source order. -/
def applyFilters (opts : QueryOptions) (ts : List TranscriptionData) :
    List TranscriptionData :=
  let ts1 := if jsTruthyStr opts.guildId then
      ts.filter (fun t => t.guildId == opts.guildId.getD "") else ts
  let ts2 := if jsTruthyStr opts.channelId then
      ts1.filter (fun t => t.channelId == opts.channelId.getD "") else ts1
  let ts3 := if jsTruthyNat opts.startDate then
      ts2.filter (fun t => opts.startDate.getD 0 ≤ t.timestamp) else ts2
  let ts4 := if jsTruthyNat opts.endDate then
      ts3.filter (fun t => t.timestamp ≤ opts.endDate.getD 0) else ts3
  ts4

/-- Newest-first comparator: the source sorts with
`(a, b) => new Date(b.timestamp) - new Date(a.timestamp)`. -/
def newerFirst (a b : TranscriptionData) : Bool :=
  decide (b.timestamp ≤ a.timestamp)

/-- `transcriptionService.getUserTranscriptions`. -/
def getUserTranscriptions (db : Except Unit (Option UserRec))
    (opts : QueryOptions) : List TranscriptionData :=
  match db with
  | .error _ => []
  | .ok none => []
  | .ok (some user) =>
    let limit := jsOrNat opts.limit 100
    let skip := jsOrNat opts.skip 0
    let sorted := (applyFilters opts user.transcriptions).mergeSort newerFirst
    (sorted.drop skip).take limit

/-! ### Concrete inputs used by the witnesses and counterexamples -/

/-- Storage-integrated dispatch with a failing provider call: MongoDB is
connected, the 4000-byte utterance file exists, the API key is present, and
the axios request inside `transcribeAndSave` rejects (timeout). -/
def envProviderFail : DispatchEnv :=
  { mongoAtBoundary := true, fileExists := true, fileSize := 4000,
    apiKeyPresent := true, providerText := none, dbReady := true,
    userLookupOk := true, saveOk := true, directText := none,
    channelExists := true, textChannelExists := true }

/-- A healthy environment except that the utterance file holds only 800
bytes, below the 1000-byte noise floor. -/
def env800 : DispatchEnv :=
  { mongoAtBoundary := true, fileExists := true, fileSize := 800,
    apiKeyPresent := true, providerText := some "hello", dbReady := true,
    userLookupOk := true, saveOk := true, directText := some "hello",
    channelExists := true, textChannelExists := true }

/-- Both the storage-integrated provider call and the direct fallback call
fail for this utterance. -/
def envBothFail : DispatchEnv :=
  { mongoAtBoundary := true, fileExists := true, fileSize := 4000,
    apiKeyPresent := true, providerText := none, dbReady := true,
    userLookupOk := true, saveOk := true, directText := none,
    channelExists := true, textChannelExists := true }

/-- A 100-byte frame whose only non-zero byte sits at index 99. -/
def chunk99 : List Nat := List.replicate 99 0 ++ [1]

/-- Query options with every field absent. -/
def emptyOpts : QueryOptions :=
  { limit := none, skip := none, guildId := none, channelId := none,
    startDate := none, endDate := none }

/-- A transcription payload without a confidence score. -/
def sampleT : TranscriptionData :=
  { timestamp := 5, content := "hi there", channelId := "c1",
    channelName := "General", guildId := "g1", guildName := "Guild One",
    duration := some 500, confidenceScore := none, audioFilePath := none }

/-- A user record with three prior transcriptions in its counters. -/
def sampleUser : UserRec :=
  { userId := "u1", username := "alice", transcriptions := [],
    stats := { totalTranscriptions := 3, totalSpeakingTime := 1000,
               averageConfidence := 50 },
    lastActive := 0 }

/-- A stored transcription entry for the history-query witness. -/
def entryT : TranscriptionData :=
  { timestamp := 42, content := "hello", channelId := "c1",
    channelName := "General", guildId := "g1", guildName := "Guild One",
    duration := some 300, confidenceScore := none, audioFilePath := none }

/-- A stored user owning exactly one transcription entry. -/
def witnessUser : UserRec :=
  { userId := "u2", username := "bob", transcriptions := [entryT],
    stats := { totalTranscriptions := 1, totalSpeakingTime := 300,
               averageConfidence := 0 },
    lastActive := 0 }

/-! ## Theorems -/

theorem scanLoop_stuck (chunk : List Nat) (h0 : 0 < chunk.length)
    (hz : chunk.get ⟨0, h0⟩ = 0) :
    ∀ fuel, scanLoop chunk 0 fuel 0 = none := by
  intro fuel
  induction fuel with
  | zero => rfl
  | succ n ih =>
    rw [scanLoop, dif_pos h0, if_neg (by simpa using hz), Nat.add_zero, ih]

theorem scanLoop_spec (chunk : List Nat) (step : Nat) (hstep : 0 < step) :
    ∀ fuel i, 0 < fuel → chunk.length < fuel + i →
      scanLoop chunk step fuel i ≠ none ∧
      (scanLoop chunk step fuel i = some true ↔
        ∃ k, i + k * step < chunk.length ∧ chunk.getD (i + k * step) 0 ≠ 0) := by
  intro fuel
  induction fuel with
  | zero => intro i h0 _; omega
  | succ n ih =>
    intro i _ hlen
    by_cases h : i < chunk.length
    · by_cases hz : chunk.get ⟨i, h⟩ = 0
      · have hzd : chunk.getD i 0 = 0 := by
          rw [List.getD_eq_getElem?_getD, List.getElem?_eq_getElem h]
          simpa [List.get_eq_getElem] using hz
        have hn : 0 < n := by omega
        have hrec := ih (i + step) hn (by omega)
        have heq : scanLoop chunk step (n + 1) i = scanLoop chunk step n (i + step) := by
          rw [scanLoop, dif_pos h, if_neg (by simpa using hz)]
        refine ⟨by rw [heq]; exact hrec.1, ?_⟩
        rw [heq, hrec.2]
        constructor
        · rintro ⟨k, hk1, hk2⟩
          refine ⟨k + 1, ?_, ?_⟩
          · have : (k + 1) * step = k * step + step := by rw [Nat.succ_mul]
            omega
          · have harg : i + (k + 1) * step = i + step + k * step := by
              rw [Nat.succ_mul]; omega
            rwa [harg]
        · rintro ⟨k, hk1, hk2⟩
          cases k with
          | zero =>
            simp only [Nat.zero_mul, Nat.add_zero] at hk2
            exact absurd hzd hk2
          | succ m =>
            refine ⟨m, ?_, ?_⟩
            · have : (m + 1) * step = m * step + step := by rw [Nat.succ_mul]
              omega
            · have harg : i + (m + 1) * step = i + step + m * step := by
                rw [Nat.succ_mul]; omega
              rwa [harg] at hk2
      · have heq : scanLoop chunk step (n + 1) i = some true := by
          rw [scanLoop, dif_pos h, if_pos (by simpa using hz)]
        refine ⟨by simp [heq], ?_⟩
        rw [heq]
        simp only [true_iff]
        refine ⟨0, by simpa using h, ?_⟩
        simp only [Nat.zero_mul, Nat.add_zero]
        rw [List.getD_eq_getElem?_getD, List.getElem?_eq_getElem h]
        simpa [List.get_eq_getElem] using hz
    · have heq : scanLoop chunk step (n + 1) i = some false := by
        rw [scanLoop, dif_neg h]
      refine ⟨by simp [heq], ?_⟩
      rw [heq]
      constructor
      · intro hcontra
        simp at hcontra
      · rintro ⟨k, hk1, -⟩
        omega

theorem sampleStep_pos (len : Nat) (h : 100 ≤ len) : 0 < sampleStep len := by
  have h1 : sampleSize len ≤ len := max_le h (Nat.div_le_self len 5)
  have h2 : 0 < sampleSize len := lt_of_lt_of_le (by norm_num) (le_max_left 100 (len / 5))
  exact (Nat.one_le_div_iff h2).mpr h1

theorem sampleStep_mul_le (len : Nat) : sampleStep len * sampleSize len ≤ len :=
  Nat.div_mul_le_self len (sampleSize len)

theorem sampled_coverage (len : Nat) (h : 100 ≤ len) :
    sampleSize len ≤ ((Finset.range len).filter (fun j => sampleStep len ∣ j)).card := by
  have hstep := sampleStep_pos len h
  have hmul := sampleStep_mul_le len
  have := Finset.card_le_card_of_injOn (f := fun k => k * sampleStep len)
    (s := Finset.range (sampleSize len))
    (t := (Finset.range len).filter (fun j => sampleStep len ∣ j))
    (by
      intro k hk
      simp only [Finset.mem_range] at hk
      simp only [Finset.mem_filter, Finset.mem_range]
      constructor
      · have h1 : k + 1 ≤ sampleSize len := hk
        nlinarith
      · exact dvd_mul_left (sampleStep len) k)
    (by
      intro a _ b _ hab
      exact Nat.eq_of_mul_eq_mul_right hstep hab)
  simpa using this

/-- C6: the claim says the sampling loop terminates on every frame.  On an
all-zero frame of 50 bytes the ratio `length / sampleSize` is zero, so the
loop index never advances and the loop never exits, whatever the iteration
bound: the code contradicts the intended never-block behaviour. -/
theorem C6_code_eval : scanDiverges (List.replicate 50 0) := by
  intro fuel
  have hs : sampleStep ((List.replicate 50 0 : List Nat).length) = 0 := by decide
  rw [containsAudio, hs]
  exact scanLoop_stuck _ (by decide) (by decide) fuel

/-- C5 counterexample: the 2-byte frame `[0, 1]` has a non-zero byte, so the
claimed classification must call it active, but the sampling loop never
terminates on it (stride 0, first byte zero), so no classification happens. -/
theorem C5_counterexample :
    scanDiverges [0, 1] ∧ ([0, 1] : List Nat).any (fun b => b != 0) = true := by
  refine ⟨?_, by decide⟩
  intro fuel
  have hs : sampleStep (([0, 1] : List Nat).length) = 0 := by decide
  rw [containsAudio, hs]
  exact scanLoop_stuck _ (by decide) (by decide) fuel

/-- C5 (amended): on frames of at least 100 bytes the sampling loop
terminates and classifies the frame active exactly when some byte at an
index that is a multiple of the stride is non-zero, and the sampled index
set has at least `max 100 (length / 5)` elements; frames shorter than 100
bytes fall outside the claim because the stride is zero there. -/
theorem C5_sampling_classification (chunk : List Nat) (h : 100 ≤ chunk.length) :
    containsAudio chunk (chunk.length + 1) ≠ none ∧
    (containsAudio chunk (chunk.length + 1) = some true ↔
      ∃ j, j < chunk.length ∧ sampleStep chunk.length ∣ j ∧ chunk.getD j 0 ≠ 0) ∧
    sampleSize chunk.length ≤
      ((Finset.range chunk.length).filter (fun j => sampleStep chunk.length ∣ j)).card := by
  have hstep := sampleStep_pos chunk.length h
  have hspec := scanLoop_spec chunk (sampleStep chunk.length) hstep (chunk.length + 1) 0
    (by omega) (by omega)
  rw [containsAudio]
  refine ⟨hspec.1, ?_, sampled_coverage chunk.length h⟩
  rw [hspec.2]
  constructor
  · rintro ⟨k, hk1, hk2⟩
    exact ⟨k * sampleStep chunk.length, by simpa using hk1,
      dvd_mul_left (sampleStep chunk.length) k, by simpa using hk2⟩
  · rintro ⟨j, hj1, ⟨k, hk⟩, hj2⟩
    refine ⟨k, ?_, ?_⟩
    · simpa [hk, Nat.mul_comm] using hj1
    · simpa [hk, Nat.mul_comm] using hj2

/-- C5 witness: a 100-byte frame whose single non-zero byte sits at the last
index satisfies the amended classification statement. -/
theorem C5_sampling_classification_witness :
    100 ≤ chunk99.length ∧
    (containsAudio chunk99 (chunk99.length + 1) ≠ none ∧
      (containsAudio chunk99 (chunk99.length + 1) = some true ↔
        ∃ j, j < chunk99.length ∧ sampleStep chunk99.length ∣ j ∧ chunk99.getD j 0 ≠ 0) ∧
      sampleSize chunk99.length ≤
        ((Finset.range chunk99.length).filter (fun j => sampleStep chunk99.length ∣ j)).card) :=
  ⟨by decide, C5_sampling_classification chunk99 (by decide)⟩

/-- C1: evaluated at threshold 2000 ms on the frame trace
active at 0, inactive at 100, active at 200, inactive at 2300: speech
resumes at 200 without clearing `silenceStart`, so the single inactive
frame at 2300 — a silence run of elapsed 0 ms, far below the threshold —
immediately emits a boundary, against the zero-boundaries-for-short-runs
part of the claim. -/
theorem C1_code_eval :
    (segRun (silenceThreshold none) initSegState
        [(0, true), (100, false), (200, true)]).1 =
      { isSpeaking := true, silenceStart := some 100 } ∧
    segRun (silenceThreshold none) initSegState
        [(0, true), (100, false), (200, true), (2300, false)] =
      ({ isSpeaking := false, silenceStart := some 100 },
        [false, false, false, true]) := by
  exact ⟨by decide, by decide⟩

/-- C2 counterexample: a dispatch completion captured before a recovery
cycle, arriving at time 20 after recovery re-created the session entry at
time 10, changes that entry instead of leaving it untouched. -/
theorem C2_counterexample :
    (handleTranscription (some "hello") true true 20
        (some (setupSession "alice" 10))).1 ≠
      some (setupSession "alice" 10) := by decide

/-- C2 (amended): there is no generation counter; a stale completion whose
result has non-empty text, arriving when the voice channel still resolves,
overwrites `lastTranscription` of whatever session entry is current — in
particular of the entry the recovery cycle freshly installed. -/
theorem C2_stale_completion_mutates (text username : String)
    (created now : Nat) (textChannel : Bool) (htext : text ≠ "") :
    (handleTranscription (some text) true textChannel now
        (some (setupSession username created))).1 =
      some { username := username, lastTranscription := now } := by
  simp [handleTranscription, setupSession, htext]

/-- C2 witness: the amended statement at a concrete stale completion. -/
theorem C2_stale_completion_mutates_witness :
    (("hi" : String) ≠ "") ∧
    (handleTranscription (some "hi") true true 20
        (some (setupSession "bob" 10))).1 =
      some { username := "bob", lastTranscription := 20 } :=
  ⟨by decide, C2_stale_completion_mutates "hi" "bob" 10 20 true (by decide)⟩

theorem transcribeAndSave_fail (env : DispatchEnv)
    (hfail : env.providerText = none ∨
      (env.dbReady = true ∧ (env.userLookupOk = false ∨ env.saveOk = false))) :
    ∃ p, transcribeAndSave env = (.ok none, p, 0) := by
  unfold transcribeAndSave
  split_ifs with h1 h2 h3 h4 h5 h6
  · exact ⟨0, rfl⟩
  · exact ⟨0, rfl⟩
  · exact ⟨0, rfl⟩
  · rcases hfail with h | ⟨hdb, -⟩
    · rw [h]
      exact ⟨1, rfl⟩
    · rw [hdb] at h4
      simp at h4
  · cases env.providerText <;> exact ⟨1, rfl⟩
  · cases env.providerText <;> exact ⟨1, rfl⟩
  · rcases hfail with h | ⟨hdb, h | h⟩
    · rw [h]
      exact ⟨1, rfl⟩
    · rw [h] at h5
      simp at h5
    · rw [h] at h6
      simp at h6

/-- C3 counterexample: on the storage-integrated path with a failing
provider call, the code performs zero fallback invocations, not the one the
claim requires: transcribeAndSave catches the failure and resolves null, so
the catch handler holding the fallback never runs. -/
theorem C3_counterexample :
    (dispatchUtterance envProviderFail (some (setupSession "alice" 0)) 5).1.fallbackCalls ≠ 1 := by
  decide

/-- C3 (amended): when the storage-integrated path is taken and the provider
call or the persistence step inside it fails, `transcribeAndSave` resolves
null instead of rejecting, so no fallback `transcribeAudio` call, no storage
write and no result-sink post occur for that utterance, and the session
entry is untouched. -/
theorem C3_no_fallback_on_caught_failure (env : DispatchEnv)
    (sess : Option UserSession) (now : Nat)
    (hmongo : env.mongoAtBoundary = true)
    (hfail : env.providerText = none ∨
      (env.dbReady = true ∧ (env.userLookupOk = false ∨ env.saveOk = false))) :
    (dispatchUtterance env sess now).1.fallbackCalls = 0 ∧
    (dispatchUtterance env sess now).1.storageWrites = 0 ∧
    (dispatchUtterance env sess now).1.sinkPosts = 0 ∧
    (dispatchUtterance env sess now).2 = sess := by
  obtain ⟨p, hts⟩ := transcribeAndSave_fail env hfail
  unfold dispatchUtterance
  rw [hmongo]
  unfold dispatchMongo
  rw [hts]
  simp

/-- C3 witness: the amended statement at the concrete failing environment. -/
theorem C3_no_fallback_on_caught_failure_witness :
    envProviderFail.mongoAtBoundary = true ∧
    envProviderFail.providerText = none ∧
    (dispatchUtterance envProviderFail (some (setupSession "bob" 0)) 7).1.fallbackCalls = 0 ∧
    (dispatchUtterance envProviderFail (some (setupSession "bob" 0)) 7).1.storageWrites = 0 ∧
    (dispatchUtterance envProviderFail (some (setupSession "bob" 0)) 7).1.sinkPosts = 0 := by
  have h := C3_no_fallback_on_caught_failure envProviderFail
    (some (setupSession "bob" 0)) 7 (by decide) (Or.inl (by decide))
  exact ⟨by decide, by decide, h.1, h.2.1, h.2.2.1⟩

/-- C4: an utterance whose audio file holds fewer than 1000 bytes is dropped
on both dispatch paths: no provider call, no storage write, no result-sink
post, and the session entry is untouched. -/
theorem C4_small_utterance_dropped (env : DispatchEnv)
    (sess : Option UserSession) (now : Nat) (hsize : env.fileSize < 1000) :
    (dispatchUtterance env sess now).1.providerCalls = 0 ∧
    (dispatchUtterance env sess now).1.storageWrites = 0 ∧
    (dispatchUtterance env sess now).1.sinkPosts = 0 ∧
    (dispatchUtterance env sess now).2 = sess := by
  by_cases hfe : env.fileExists <;>
    by_cases hm : env.mongoAtBoundary <;>
      simp [dispatchUtterance, dispatchMongo, dispatchDirect, transcribeAndSave,
        transcribeAudio, handleTranscription, hfe, hm, hsize]

/-- C4 witness: the 800-byte utterance of the specified scenario. -/
theorem C4_small_utterance_dropped_witness :
    env800.fileSize < 1000 ∧
    (dispatchUtterance env800 none 5).1.providerCalls = 0 ∧
    (dispatchUtterance env800 none 5).1.storageWrites = 0 ∧
    (dispatchUtterance env800 none 5).1.sinkPosts = 0 := by
  have h := C4_small_utterance_dropped env800 none 5 (by decide)
  exact ⟨by decide, h.1, h.2.1, h.2.2.1⟩

/-- C8: when the provider call fails and the direct fallback call would also
fail, no storage write and no result-sink post happen, the session entry is
untouched, and the segmenter keeps capturing: an active frame puts any
non-speaking state back into SPEAKING. -/
theorem C8_failed_dispatch_is_silent (env : DispatchEnv)
    (sess : Option UserSession) (now : Nat)
    (hp : env.providerText = none) (hd : env.directText = none) :
    (dispatchUtterance env sess now).1.storageWrites = 0 ∧
    (dispatchUtterance env sess now).1.sinkPosts = 0 ∧
    (dispatchUtterance env sess now).2 = sess ∧
    (∀ threshold t s0,
      (segStep threshold t true { isSpeaking := false, silenceStart := s0 }).1.isSpeaking
        = true) := by
  refine ⟨?_, ?_, ?_, by intro threshold t s0; simp [segStep]⟩ <;>
    by_cases hfe : env.fileExists <;>
      by_cases hm : env.mongoAtBoundary <;>
        by_cases hfs : env.fileSize < 1000 <;>
          by_cases hak : env.apiKeyPresent <;>
            simp [dispatchUtterance, dispatchMongo, dispatchDirect, transcribeAndSave,
              transcribeAudio, handleTranscription, hfe, hm, hfs, hak, hp, hd]

/-- C8 witness: the double-failure scenario at a concrete environment. -/
theorem C8_failed_dispatch_is_silent_witness :
    envBothFail.providerText = none ∧
    envBothFail.directText = none ∧
    (dispatchUtterance envBothFail (some (setupSession "eve" 1)) 9).1.storageWrites = 0 ∧
    (dispatchUtterance envBothFail (some (setupSession "eve" 1)) 9).1.sinkPosts = 0 ∧
    (dispatchUtterance envBothFail (some (setupSession "eve" 1)) 9).2 =
      some (setupSession "eve" 1) := by
  have h := C8_failed_dispatch_is_silent envBothFail (some (setupSession "eve" 1)) 9
    (by decide) (by decide)
  exact ⟨by decide, by decide, h.1, h.2.1, h.2.2.1⟩

/-- C7: a setup call for a speaker key that is already registered returns
without touching the registry, and any setup call preserves the invariant
that a key owns at most one registered stream. -/
theorem C7_at_most_one_pipeline (streams : List (String × Nat))
    (key key2 : String) (fresh : Nat)
    (hone : streams.countP (fun e => e.1 == key) ≤ 1) :
    (streams.any (fun e => e.1 == key) = true →
      setupReceiver streams key fresh = streams) ∧
    (setupReceiver streams key2 fresh).countP (fun e => e.1 == key) ≤ 1 := by
  constructor
  · intro hany
    unfold setupReceiver
    rw [if_pos hany]
  · unfold setupReceiver
    by_cases hany : streams.any (fun e => e.1 == key2) = true
    · rw [if_pos hany]
      exact hone
    · rw [if_neg hany]
      rw [List.countP_cons]
      by_cases hk : key2 = key
      · subst hk
        have hzero : streams.countP (fun e => e.1 == key2) = 0 := by
          rw [List.countP_eq_zero]
          intro a ha
          have hany2 : streams.any (fun e => e.1 == key2) = false :=
            Bool.eq_false_iff.mpr hany
          rw [List.any_eq_false] at hany2
          exact hany2 a ha
        simp [hzero]
      · have : ((key2, fresh).1 == key) = false := by
          simpa using hk
        simp [this]
        exact hone

/-- C7 witness: re-running setup for an already registered key is a no-op
and keeps the single registered stream. -/
theorem C7_at_most_one_pipeline_witness :
    ([(("g1-u1" : String), 7)].countP (fun e => e.1 == "g1-u1") ≤ 1) ∧
    ([(("g1-u1" : String), 7)].any (fun e => e.1 == "g1-u1") = true →
      setupReceiver [("g1-u1", 7)] "g1-u1" 9 = [("g1-u1", 7)]) ∧
    (setupReceiver [("g1-u1", 7)] "g1-u1" 9).countP (fun e => e.1 == "g1-u1") ≤ 1 := by
  have h := C7_at_most_one_pipeline [("g1-u1", 7)] "g1-u1" "g1-u1" 9 (by decide)
  exact ⟨by decide, h.1, h.2⟩

/-- C9: addTranscription increments the transcription counter by one, adds
the duration (zero when absent) to the speaking time, and recomputes the
confidence running average exactly when the incoming score is truthy,
leaving it unchanged — while the counter still increments — otherwise. -/
theorem C9_addTranscription_stats (u : UserRec) (t : TranscriptionData) (now : Nat) :
    (addTranscription u t now).stats.totalTranscriptions =
      u.stats.totalTranscriptions + 1 ∧
    (addTranscription u t now).stats.totalSpeakingTime =
      u.stats.totalSpeakingTime + t.duration.getD 0 ∧
    (jsTruthyQ t.confidenceScore = true →
      (addTranscription u t now).stats.averageConfidence =
        (u.stats.averageConfidence * (u.stats.totalTranscriptions : ℚ) +
          t.confidenceScore.getD 0) / ((u.stats.totalTranscriptions : ℚ) + 1)) ∧
    (jsTruthyQ t.confidenceScore = false →
      (addTranscription u t now).stats.averageConfidence =
        u.stats.averageConfidence) := by
  refine ⟨rfl, rfl, ?_, ?_⟩ <;> intro hcs
  · simp only [addTranscription, hcs, if_true]
    push_cast
    ring_nf
  · simp [addTranscription, hcs]

/-- C9 witness: a payload with 500 ms duration and no confidence score. -/
theorem C9_addTranscription_stats_witness :
    (addTranscription sampleUser sampleT 9).stats.totalTranscriptions = 4 ∧
    (addTranscription sampleUser sampleT 9).stats.totalSpeakingTime = 1500 ∧
    jsTruthyQ sampleT.confidenceScore = false ∧
    (addTranscription sampleUser sampleT 9).stats.averageConfidence = 50 := by
  obtain ⟨h1, h2, -, h4⟩ := C9_addTranscription_stats sampleUser sampleT 9
  refine ⟨?_, ?_, rfl, ?_⟩
  · rw [h1]; rfl
  · rw [h2]; rfl
  · rw [h4 rfl]; rfl

theorem newerFirst_trans :
    ∀ a b c, newerFirst a b → newerFirst b c → newerFirst a c := by
  intro a b c hab hbc
  simp only [newerFirst, decide_eq_true_eq] at *
  omega

theorem newerFirst_total : ∀ a b, newerFirst a b || newerFirst b a := by
  intro a b
  simp only [newerFirst, Bool.or_eq_true, decide_eq_true_eq]
  omega

theorem applyFilters_mem (opts : QueryOptions) (ts : List TranscriptionData)
    (t : TranscriptionData) (ht : t ∈ applyFilters opts ts) :
    t ∈ ts ∧
    (jsTruthyStr opts.guildId = true → t.guildId = opts.guildId.getD "") ∧
    (jsTruthyStr opts.channelId = true → t.channelId = opts.channelId.getD "") ∧
    (jsTruthyNat opts.startDate = true → opts.startDate.getD 0 ≤ t.timestamp) ∧
    (jsTruthyNat opts.endDate = true → t.timestamp ≤ opts.endDate.getD 0) := by
  simp only [applyFilters] at ht
  split_ifs at ht <;> simp_all [List.mem_filter]

/-- C10: the history query returns the empty list on an internal error and
for a missing user; for a stored user it returns at most the (defaulted)
limit of entries, newest first, each drawn from the transcriptions of the user
and passing every truthy filter, and the result is exactly the
skip/limit window of the filtered, newest-first-sorted list. -/
theorem C10_getUserTranscriptions (opts : QueryOptions) (u : UserRec) :
    getUserTranscriptions (.error ()) opts = [] ∧
    getUserTranscriptions (.ok none) opts = [] ∧
    (getUserTranscriptions (.ok (some u)) opts).length ≤ jsOrNat opts.limit 100 ∧
    (getUserTranscriptions (.ok (some u)) opts).Pairwise
      (fun a b => b.timestamp ≤ a.timestamp) ∧
    (∀ t ∈ getUserTranscriptions (.ok (some u)) opts,
      t ∈ u.transcriptions ∧
      (jsTruthyStr opts.guildId = true → t.guildId = opts.guildId.getD "") ∧
      (jsTruthyStr opts.channelId = true → t.channelId = opts.channelId.getD "") ∧
      (jsTruthyNat opts.startDate = true → opts.startDate.getD 0 ≤ t.timestamp) ∧
      (jsTruthyNat opts.endDate = true → t.timestamp ≤ opts.endDate.getD 0)) ∧
    getUserTranscriptions (.ok (some u)) opts =
      (((applyFilters opts u.transcriptions).mergeSort newerFirst).drop
          (jsOrNat opts.skip 0)).take (jsOrNat opts.limit 100) := by
  refine ⟨rfl, rfl, ?_, ?_, ?_, rfl⟩
  · simp only [getUserTranscriptions]
    exact List.length_take_le _ _
  · have hs : (((applyFilters opts u.transcriptions).mergeSort newerFirst)).Pairwise
        (fun a b => newerFirst a b) :=
      List.sorted_mergeSort newerFirst_trans newerFirst_total _
    have hsub : List.Sublist (getUserTranscriptions (.ok (some u)) opts)
        ((applyFilters opts u.transcriptions).mergeSort newerFirst) := by
      simp only [getUserTranscriptions]
      exact (List.take_sublist _ _).trans (List.drop_sublist _ _)
    refine (List.Pairwise.sublist hsub hs).imp ?_
    intro a b h
    simpa [newerFirst] using h
  · intro t ht
    have hmem : t ∈ (applyFilters opts u.transcriptions).mergeSort newerFirst := by
      simp only [getUserTranscriptions] at ht
      exact List.mem_of_mem_drop (List.mem_of_mem_take ht)
    rw [List.mem_mergeSort] at hmem
    exact applyFilters_mem opts u.transcriptions t hmem

/-- C10 witness: a stored user with one entry and empty options; the entry
is returned and belongs to that user. -/
theorem C10_getUserTranscriptions_witness :
    getUserTranscriptions (.error ()) emptyOpts = [] ∧
    getUserTranscriptions (.ok none) emptyOpts = [] ∧
    (getUserTranscriptions (.ok (some witnessUser)) emptyOpts).length ≤
      jsOrNat emptyOpts.limit 100 ∧
    (entryT ∈ getUserTranscriptions (.ok (some witnessUser)) emptyOpts ∧
      entryT ∈ witnessUser.transcriptions) := by
  obtain ⟨h1, h2, h3, -, h5, -⟩ := C10_getUserTranscriptions emptyOpts witnessUser
  have hres : getUserTranscriptions (.ok (some witnessUser)) emptyOpts = [entryT] := by
    simp only [getUserTranscriptions]
    have hfil : applyFilters emptyOpts witnessUser.transcriptions = [entryT] := rfl
    rw [hfil, List.mergeSort_singleton]
    rfl
  have hmem : entryT ∈ getUserTranscriptions (.ok (some witnessUser)) emptyOpts := by
    rw [hres]
    exact List.Mem.head _
  exact ⟨h1, h2, h3, hmem, (h5 entryT hmem).1⟩

end Voicemod
